import Mathlib

/-!
Verification of the wordfence-cli parallel scanning engine
(`src/wordfence/scanning/scanner.py` and `src/wordfence/cli/scan/scan.py`),
as a shallow embedding: the relevant Python classes and functions are
translated into executable Lean definitions, and the specified properties are
settled as theorems about those definitions.

Operating-system effects (queues, the filesystem, file reads) are made
explicit: the filesystem is an abstract structure of functions, a queue is the
list of values passed through it, and a worker loop is a function from the
list of items it receives to the list of events it emits.
-/

namespace Wordfence

/-! ## Basic data model (scanner.py) -/

/-- `Status` enum (scanner.py lines 85-89). -/
inductive Status where
  | LOCATING_FILES
  | PROCESSING_FILES
  | COMPLETE
  | FAILED
  deriving DecidableEq, Repr

/-- Position of a status along the `LOCATING_FILES → PROCESSING_FILES →
COMPLETE` chain (`FAILED` last, reachable from anywhere). -/
def statusRank : Status → Nat
  | .LOCATING_FILES => 0
  | .PROCESSING_FILES => 1
  | .COMPLETE => 2
  | .FAILED => 3

/-- `ScanEventType` enum (scanner.py lines 32-39). -/
inductive ScanEventType where
  | COMPLETED
  | FILE_QUEUE_EMPTIED
  | FILE_PROCESSED
  | EXCEPTION
  | FATAL_EXCEPTION
  | PROGRESS_UPDATE
  | LOG_MESSAGE
  deriving DecidableEq, Repr

/-- The one `ScanningException` raised inside the scanning core:
`ScanningException('Directory search failed')` (scanner.py line 115). -/
inductive ScanningException where
  | directorySearchFailed
  deriving DecidableEq, Repr

/-- A Python exception value carried in events and queues: either an
`OSError` from file I/O (identified by its error code) or a
`ScanningException` from the directory walk. -/
inductive PyError where
  | osError (code : Nat)
  | scanning (e : ScanningException)
  deriving DecidableEq, Repr

/-- Log levels used by the pool event loop. -/
inductive LogLevel where
  | debug
  | info
  | warning
  | error
  deriving DecidableEq, Repr

/-- The payload (`data` dict) of a `ScanEvent`. `fileData` mirrors the dict
`{'path': …, 'length': …, 'matches': …, 'timeouts': …}` built by
`ScanWorker._process_file` (`matched` stands for the source's `matches` key,
a reserved word here); `exceptionData` the dict `{'exception': …}`;
`logData` the dict `{'level': …, 'message': …}`; `noData` the default `{}`. -/
inductive EventData where
  | noData
  | exceptionData (e : PyError)
  | fileData (path : String) (length : Nat)
      (matched : List (Nat × String)) (timeouts : List Nat)
  | logData (level : LogLevel) (message : String)
  deriving DecidableEq, Repr

/-- `ScanEvent` (scanner.py lines 184-197): a type tag, a payload and the
index of the originating worker (`worker_index`). -/
structure ScanEvent where
  type : ScanEventType
  data : EventData
  workerIndex : Nat
  deriving DecidableEq, Repr

/-- `FILE_LOCATOR_WORKER_INDEX = 0` (scanner.py line 24): the worker index
the file locator process uses when sending events. -/
def FILE_LOCATOR_WORKER_INDEX : Nat := 0

/-! ## FileLocator (scanner.py lines 92-125)

The filesystem is abstracted to the operations the locator performs on it:
`os.path.realpath`, `os.path.isdir`/`os.scandir` on the canonicalised root,
and the directory tree below a root.  A directory listing is a list of
entries; an entry is a subdirectory (with its own listing), a subdirectory
whose `os.scandir` raises `OSError`, a regular file, or something that is
neither (`item.is_dir()` and `item.is_file()` both false). -/

/-- One entry found by `os.scandir`. -/
inductive Entry where
  | dir (path : String) (entries : List Entry)
  | faildir (path : String)
  | file (path : String)
  | other (path : String)

/-- What the locator finds at a canonicalised root path: a directory whose
`os.scandir` succeeds, a directory whose `os.scandir` raises `OSError`, or a
non-directory (an ordinary file, a missing path, a special file, …). -/
inductive RootNode where
  | dir (entries : List Entry)
  | dirFail
  | nonDir

/-- The filesystem as the locator observes it. -/
structure Filesystem where
  realpath : String → String
  root : String → RootNode

/-- `FileLocator.search_directory` (scanner.py lines 103-115) over a
directory listing: directories are recursed into, files are yielded when the
`FileFilter` accepts them, other entries are skipped.  An `OSError` from
`os.scandir` (a `faildir` entry, or transitively from a nested listing) is
re-raised as `ScanningException('Directory search failed')`, aborting the
whole walk; the paths yielded before the failure have already been emitted.
Result: the yielded paths in order, and the exception if the walk failed. -/
def searchList (filter : String → Bool) :
    List Entry → List String × Option ScanningException
  | [] => ([], none)
  | Entry.dir _ entries :: rest =>
      let inner := searchList filter entries
      match inner.2 with
      | some e => (inner.1, some e)
      | none =>
          let after := searchList filter rest
          (inner.1 ++ after.1, after.2)
  | Entry.faildir _ :: _ => ([], some ScanningException.directorySearchFailed)
  | Entry.file p :: rest =>
      let after := searchList filter rest
      ((if filter p then [p] else []) ++ after.1, after.2)
  | Entry.other _ :: rest => searchList filter rest

/-- `FileLocator.locate` (scanner.py lines 117-125): canonicalise the root
with `os.path.realpath`; if the result is a directory, walk it and enqueue
each yielded path; otherwise enqueue the canonicalised path itself (no
existence or regular-file check, no `FileFilter`).  Result: the paths put on
the work queue in order, and the `ScanningException` if the walk failed. -/
def locate (fs : Filesystem) (filter : String → Bool) (p : String) :
    List String × Option ScanningException :=
  let realPath := fs.realpath p
  match fs.root realPath with
  | RootNode.dir entries => searchList filter entries
  | RootNode.dirFail => ([], some ScanningException.directorySearchFailed)
  | RootNode.nonDir => ([realPath], none)

/-! ## FileLocatorProcess.run (scanner.py lines 165-181) -/

/-- A value on the work queue: a file path, the end-of-stream sentinel
(`None`), or a poison exception object. -/
inductive QueueItem where
  | path (p : String)
  | sentinel
  | poison (e : ScanningException)
  deriving DecidableEq, Repr

/-- Whether a queue item is the end-of-stream sentinel. -/
def QueueItem.isSentinel : QueueItem → Bool
  | .sentinel => true
  | _ => false

/-- Number of end-of-stream sentinels on a queue trace. -/
def countSentinels (items : List QueueItem) : Nat :=
  items.countP (·.isSentinel)

/-- `FileLocatorProcess.run` (scanner.py lines 165-181): drain the input
queue (the given list is the sequence of paths received before the `None`
pushed by `finalize_paths`), running `FileLocator.locate` for each; when the
input is exhausted push one `None` sentinel; if a `locate` raises
`ScanningException`, push the exception object instead (the paths located
before the failure are already on the queue) and exit without a sentinel. -/
def locatorRun (fs : Filesystem) (filter : String → Bool) :
    List String → List QueueItem
  | [] => [QueueItem.sentinel]
  | p :: rest =>
      let r := locate fs filter p
      r.1.map QueueItem.path ++
        match r.2 with
        | some e => [QueueItem.poison e]
        | none => locatorRun fs filter rest

/-! ## FileLocatorProcess bookkeeping (scanner.py lines 150-160) -/

/-- The controller-side state of a `FileLocatorProcess`: `_path_count` and
the contents of `_input_queue` (`some p` a pushed path, `none` the `None`
sentinel pushed by `finalize_paths`). -/
structure LocatorProcessState where
  pathCount : Nat
  inputQueue : List (Option String)
  deriving DecidableEq, Repr

/-- State after `FileLocatorProcess.__init__`: `_path_count = 0`, empty
input queue. -/
def locatorProcessInit : LocatorProcessState := ⟨0, []⟩

/-- `FileLocatorProcess.add_path` (scanner.py lines 150-153): increment
`_path_count` and put the path on the input queue. -/
def addPath (s : LocatorProcessState) (p : String) : LocatorProcessState :=
  ⟨s.pathCount + 1, s.inputQueue ++ [some p]⟩

/-- `ScanConfigurationException` (scanner.py lines 28-29, raised at lines
157-160 with message 'At least one scan path must be specified'). -/
inductive ScanConfigurationException where
  | noScanPaths
  deriving DecidableEq, Repr

/-- `FileLocatorProcess.finalize_paths` (scanner.py lines 155-160): put the
`None` end-of-input sentinel on the input queue, then raise
`ScanConfigurationException` when `_path_count < 1`. -/
def finalizePaths (s : LocatorProcessState) :
    LocatorProcessState × Option ScanConfigurationException :=
  (⟨s.pathCount, s.inputQueue ++ [none]⟩,
   if s.pathCount < 1 then some ScanConfigurationException.noScanPaths
   else none)

/-! ## ScanWorker (scanner.py lines 217-318)

A file on disk is abstracted to what `open`/`file.read` can do with it:
opening may raise `OSError`, and each `read(n)` either returns some number of
bytes or raises `OSError`.  The matcher is an out-of-scope collaborator: a
per-file `MatchContext` is abstracted to whether `process_chunk` returns
`True` (short-circuit) after the n-th chunk, plus its final `matches` and
`timeouts` payloads. -/

/-- Outcome of one `file.read(n)` call: the number of bytes returned
(`0` at end of file), or an `OSError`. -/
inductive ReadResult where
  | ok (bytes : Nat)
  | err (code : Nat)
  deriving DecidableEq, Repr

/-- A file as the worker observes it: whether `open` raises, and the outcome
of `read(requested)` at each offset. -/
structure PyFile where
  openError : Option Nat
  read : Nat → Nat → ReadResult

/-- A `read` that behaves like a real file read: it never returns more bytes
than requested. -/
def ReadValid (f : PyFile) : Prop :=
  ∀ offset requested n, f.read offset requested = ReadResult.ok n →
    n ≤ requested

/-- A `MatchContext` collaborator, abstracted: `shortCircuitAt k` is the
value `process_chunk` returns for the k-th chunk (0-based), and `matched` /
`timeouts` are its final accumulated payloads. -/
structure MatcherCtx where
  shortCircuitAt : Nat → Bool
  matched : List (Nat × String)
  timeouts : List Nat

/-- `ScanWorker._get_next_chunk_size` (scanner.py lines 281-287): with no
`scanned_content_limit` always the configured chunk size; at or beyond the
limit `0` (stop); otherwise the remaining budget capped at the chunk size. -/
def getNextChunkSize (limit : Option Nat) (chunkSize : Nat) (length : Nat) :
    Nat :=
  match limit with
  | none => chunkSize
  | some l => if length ≥ l then 0 else min (l - length) chunkSize

/-- The `while (chunk_size := self._get_next_chunk_size(length))` loop of
`ScanWorker._process_file` (scanner.py lines 294-302), with explicit fuel
bounding the number of iterations (`none` = fuel exhausted with the loop
still running).  `length` is the running byte count, `chunkIndex` the 0-based
ordinal of the next chunk: read a chunk, stop at end of file, add its size,
stop when `process_chunk` short-circuits; an `OSError` aborts the loop. -/
def processLoop (limit : Option Nat) (chunkSize : Nat) (f : PyFile)
    (ctx : MatcherCtx) : Nat → Nat → Nat → Option (Except Nat Nat)
  | 0, _, _ => none
  | fuel + 1, length, chunkIndex =>
      let c := getNextChunkSize limit chunkSize length
      if c = 0 then some (Except.ok length)
      else
        match f.read length c with
        | ReadResult.err code => some (Except.error code)
        | ReadResult.ok 0 => some (Except.ok length)
        | ReadResult.ok (b + 1) =>
            let length' := length + (b + 1)
            if ctx.shortCircuitAt chunkIndex then some (Except.ok length')
            else processLoop limit chunkSize f ctx fuel length' (chunkIndex + 1)

/-- `ScanWorker._process_file` (scanner.py lines 289-313) as the events the
worker emits for one path: on success one `FILE_PROCESSED` event with the
payload `{path, length, matches, timeouts}`; on `OSError` (from `open` or any
`read`) one `EXCEPTION` event carrying the error; an empty list when the
fuel runs out mid-loop. -/
def processFileEvents (index : Nat) (path : String) (limit : Option Nat)
    (chunkSize : Nat) (f : PyFile) (ctx : MatcherCtx) (fuel : Nat) :
    List ScanEvent :=
  match f.openError with
  | some code =>
      [⟨ScanEventType.EXCEPTION, EventData.exceptionData (PyError.osError code),
        index⟩]
  | none =>
      match processLoop limit chunkSize f ctx fuel 0 0 with
      | none => []
      | some (Except.error code) =>
          [⟨ScanEventType.EXCEPTION,
            EventData.exceptionData (PyError.osError code), index⟩]
      | some (Except.ok length) =>
          [⟨ScanEventType.FILE_PROCESSED,
            EventData.fileData path length ctx.matched ctx.timeouts, index⟩]

/-- One interaction of the worker loop with the work queue
(`self._work_queue.get(timeout=QUEUE_READ_TIMEOUT)`, scanner.py line 251):
either an item arrives, or the 180 s read timeout elapses (`queue.Empty`)
with the given value observed in the shared status flag. -/
inductive WorkerInput where
  | item (i : QueueItem)
  | empty (observedStatus : Status)

/-- `ScanWorker.work` (scanner.py lines 245-264), as a function from the
sequence of queue interactions to the events the worker emits, given the
environment mapping each path to its file and fresh match context.  On the
`None` sentinel: emit `FILE_QUEUE_EMPTIED`, then `_complete` emits
`COMPLETED` and clears `_working`, ending the loop.  On a `BaseException`
item: emit `FATAL_EXCEPTION` and keep looping.  On a path: process the file.
On `queue.Empty`: `_complete` (one `COMPLETED`, loop ends) when the observed
status is `PROCESSING_FILES`, else keep looping. -/
def workerRun (env : String → PyFile) (ctxEnv : String → MatcherCtx)
    (index : Nat) (limit : Option Nat) (chunkSize : Nat) (fuel : Nat) :
    List WorkerInput → List ScanEvent
  | [] => []
  | WorkerInput.item QueueItem.sentinel :: _ =>
      [⟨ScanEventType.FILE_QUEUE_EMPTIED, EventData.noData, index⟩,
       ⟨ScanEventType.COMPLETED, EventData.noData, index⟩]
  | WorkerInput.item (QueueItem.poison e) :: rest =>
      ⟨ScanEventType.FATAL_EXCEPTION,
        EventData.exceptionData (PyError.scanning e), index⟩ ::
        workerRun env ctxEnv index limit chunkSize fuel rest
  | WorkerInput.item (QueueItem.path p) :: rest =>
      processFileEvents index p limit chunkSize (env p) (ctxEnv p) fuel ++
        workerRun env ctxEnv index limit chunkSize fuel rest
  | WorkerInput.empty s :: rest =>
      if s = Status.PROCESSING_FILES then
        [⟨ScanEventType.COMPLETED, EventData.noData, index⟩]
      else workerRun env ctxEnv index limit chunkSize fuel rest

/-! ## ScanWorkerPool (scanner.py lines 435-593) -/

/-- The worker indices `ScanWorkerPool.start` creates its workers with
(scanner.py lines 497-509): `for i in range(self.size): ScanWorker(i, …)`. -/
def poolWorkerIndices (size : Nat) : List Nat := List.range size

/-- The value `ScanWorkerPool.start` initialises the shared status flag to
(scanner.py line 486): `Value(c_uint, Status.LOCATING_FILES)`. -/
def poolInitialStatus : Status := Status.LOCATING_FILES

/-- What one iteration of `ScanWorkerPool.await_results` (scanner.py lines
537-591) does with one value taken from the event queue. -/
structure PoolStepResult where
  /-- The value of the shared status flag after the iteration. -/
  status : Status
  /-- Whether the `while True` loop runs another iteration (`False` for the
  `return` on the `None` terminator and for the `raise` on
  `FATAL_EXCEPTION`). -/
  cont : Bool
  /-- Whether the iteration called `self.terminate()` (abrupt stop of all
  workers and the monitor). -/
  terminates : Bool
  /-- The exception the iteration re-raises, if any. -/
  raises : Option PyError
  /-- The level of the log call the iteration makes, if any. -/
  logLevel : Option LogLevel
  /-- Whether the iteration records a `ScanResult` into the metrics and
  invokes the result callback. -/
  recordsResult : Bool
  deriving DecidableEq, Repr

/-- The exception object held in an event payload, if any. -/
def EventData.heldError : EventData → Option PyError
  | .exceptionData e => some e
  | _ => none

/-- The `timeouts` payload of a `FILE_PROCESSED` event. -/
def EventData.heldTimeouts : EventData → List Nat
  | .fileData _ _ _ ts => ts
  | _ => []

/-- The level of a forwarded `LOG_MESSAGE` payload. -/
def EventData.heldLevel : EventData → Option LogLevel
  | .logData level _ => some level
  | _ => none

/-- One iteration of `ScanWorkerPool.await_results` (scanner.py lines
542-591) on the value read from the event queue (`none` is the `None` loop
terminator).  `None`: log, set status `COMPLETE`, return.  `COMPLETED`: log
at debug (and possibly push the terminator; the push only shapes later queue
contents, which are already arbitrary here).  `FILE_PROCESSED`: build the
result, warn when it carries timeouts, record it and invoke the callback.
`FILE_QUEUE_EMPTIED`: set status `PROCESSING_FILES`.  `EXCEPTION`: log at
error level.  `FATAL_EXCEPTION`: set status `FAILED`, terminate all units,
re-raise the carried exception.  `PROGRESS_UPDATE`: send a progress update.
`LOG_MESSAGE`: replay the record at its original level. -/
def awaitStep (status : Status) : Option ScanEvent → PoolStepResult
  | none =>
      ⟨Status.COMPLETE, false, false, none, some LogLevel.debug, false⟩
  | some e =>
      match e.type with
      | ScanEventType.COMPLETED =>
          ⟨status, true, false, none, some LogLevel.debug, false⟩
      | ScanEventType.FILE_PROCESSED =>
          ⟨status, true, false, none,
           if e.data.heldTimeouts = [] then none else some LogLevel.warning,
           true⟩
      | ScanEventType.FILE_QUEUE_EMPTIED =>
          ⟨Status.PROCESSING_FILES, true, false, none, none, false⟩
      | ScanEventType.EXCEPTION =>
          ⟨status, true, false, none, some LogLevel.error, false⟩
      | ScanEventType.FATAL_EXCEPTION =>
          ⟨Status.FAILED, false, true, e.data.heldError, none, false⟩
      | ScanEventType.PROGRESS_UPDATE =>
          ⟨status, true, false, none, none, false⟩
      | ScanEventType.LOG_MESSAGE =>
          ⟨status, true, false, none, e.data.heldLevel, false⟩

/-- The successive values of the shared status flag while `await_results`
consumes the given event-queue values, stopping when an iteration returns or
raises. -/
def awaitStatuses (status : Status) :
    List (Option ScanEvent) → List Status
  | [] => []
  | item :: rest =>
      let r := awaitStep status item
      r.status :: (if r.cont then awaitStatuses r.status rest else [])

/-- The transitions `await_results` performs while consuming the given
event-queue values: (status before, item consumed, status after), stopping
when an iteration returns or raises. -/
def awaitTrace (status : Status) :
    List (Option ScanEvent) → List (Status × Option ScanEvent × Status)
  | [] => []
  | item :: rest =>
      let r := awaitStep status item
      (status, item, r.status) ::
        (if r.cont then awaitTrace r.status rest else [])

/-! ## ScanMetrics and the finished messages (scanner.py lines 344-432) -/

/-- `ScanMetrics` (scanner.py lines 344-385): one integer metric list per
kind, one slot per worker (`matchedCounts` stands for the source's `matches`
metric, a reserved word here). -/
structure ScanMetrics where
  counts : List Nat
  bytes : List Nat
  matchedCounts : List Nat
  timeouts : List Nat
  deriving DecidableEq, Repr

/-- `ScanMetrics._aggregate_int_metric` (scanner.py lines 362-366):
`total = 0; for value in metric: total += value`. -/
def aggregateIntMetric (metric : List Nat) : Nat :=
  metric.foldl (· + ·) 0

/-- `ScanMetrics.get_total_count`. -/
def getTotalCount (m : ScanMetrics) : Nat := aggregateIntMetric m.counts

/-- `ScanMetrics.get_total_bytes`. -/
def getTotalBytes (m : ScanMetrics) : Nat := aggregateIntMetric m.bytes

/-- `ScanMetrics.get_total_matches`. -/
def getTotalMatches (m : ScanMetrics) : Nat :=
  aggregateIntMetric m.matchedCounts

/-- `ScanMetrics.get_total_timeouts`. -/
def getTotalTimeouts (m : ScanMetrics) : Nat := aggregateIntMetric m.timeouts

/-- Python's built-in `round` with `ndigits` omitted, on an exact rational:
nearest integer, ties to the even neighbour (banker's rounding).  Used for
`round(timer.get_elapsed())` (scanner.py line 412). -/
def pyRound (q : ℚ) : ℤ :=
  let f := ⌊q⌋
  if q - f < 1 / 2 then f
  else if 1 / 2 < q - f then f + 1
  else if f % 2 = 0 then f else f + 1

/-- `ScanFinishedMessages` (scanner.py lines 400-402). -/
structure ScanFinishedMessages where
  results : String
  timeouts : Option String
  deriving DecidableEq, Repr

/-- `get_scan_finished_messages` (scanner.py lines 405-421).  The timer is
represented by its exact elapsed seconds. -/
def getScanFinishedMessages (metrics : ScanMetrics) (elapsed : ℚ) :
    ScanFinishedMessages :=
  let matchCount := getTotalMatches metrics
  let totalCount := getTotalCount metrics
  let byteCount := getTotalBytes metrics
  let elapsedTime := pyRound elapsed
  let timeoutCount := getTotalTimeouts metrics
  let timeoutsMessage :=
    if timeoutCount > 0 then
      some (toString timeoutCount ++ " timeout(s) occurred during scan")
    else none
  let resultsMessage :=
    "Found " ++ toString matchCount ++ " matching file(s) after processing "
      ++ toString totalCount ++ " file(s) containing " ++ toString byteCount
      ++ " byte(s) over " ++ toString elapsedTime ++ " second(s)"
  ⟨resultsMessage, timeoutsMessage⟩

/-- `default_scan_finished_handler` (scanner.py lines 424-432), as the log
calls it makes in order: the timeouts message at warning level when present,
then the results message at info level. -/
def defaultScanFinishedHandler (metrics : ScanMetrics) (elapsed : ℚ) :
    List (LogLevel × String) :=
  let messages := getScanFinishedMessages metrics elapsed
  (match messages.timeouts with
   | some t => [(LogLevel.warning, t)]
   | none => []) ++ [(LogLevel.info, messages.results)]

/-! ## Scanner.scan (scanner.py lines 596-658)

The façade's control flow is embedded as the ordered trace of the externally
visible steps it performs, for a run with the given configured `paths`, the
entries yielded by the optional `path_source`, and `workers` scan workers. -/

/-- One externally visible step of `Scanner.scan`. -/
inductive ScanStep where
  | startTimer
  | startLocatorProcess
  | addPathStep (p : String)
  | createMatcher
  | createMetrics
  | startWorker (i : Nat)
  | finalize
  | raiseConfigurationError
  | awaitResults
  | joinWorkers
  | terminateWorkers
  | stopTimer
  | callFinishedHandler
  deriving DecidableEq, Repr

/-- The trace of `Scanner.scan` (scanner.py lines 606-658): start the timer,
start the locator process, `add_path` each configured path, build the
matcher and metrics, enter the pool scope (`__enter__` starts the workers,
indices `range(workers)`), `add_path` each entry from the path source, then
`finalize_paths`.  When no path was ever added, `finalize_paths` raises
`ScanConfigurationException`; the `with` block exits on the exception, so the
pool terminates its workers and the error propagates (no `await_results`, no
finished handler).  Otherwise the loop `await_results` runs, the scope exit
joins the workers, the timer stops and the finished handler is called. -/
def scanTrace (paths : List String) (sourcePaths : List String)
    (workers : Nat) : List ScanStep :=
  [ScanStep.startTimer, ScanStep.startLocatorProcess] ++
    paths.map ScanStep.addPathStep ++
    [ScanStep.createMatcher, ScanStep.createMetrics] ++
    (poolWorkerIndices workers).map ScanStep.startWorker ++
    sourcePaths.map ScanStep.addPathStep ++
    [ScanStep.finalize] ++
    (if paths.length + sourcePaths.length = 0 then
      [ScanStep.raiseConfigurationError, ScanStep.terminateWorkers]
    else
      [ScanStep.awaitResults, ScanStep.joinWorkers, ScanStep.stopTimer,
       ScanStep.callFinishedHandler])

/-- Index of the first occurrence of a step in a trace. -/
def stepIndex (trace : List ScanStep) (s : ScanStep) : Nat :=
  trace.indexOf s

/-! ## CLI scan command (cli/scan/scan.py lines 147-177) -/

/-- How one invocation of `ScanCommand.execute` ends, as `main` observes it:
it returns normally, it raises `LicenseRequiredException`, or it raises any
other `BaseException` (a fatal scan error such as a `ScanningException`
re-raised by `await_results`, or a `TypeError` from building `Options`). -/
inductive ExecOutcome where
  | completes
  | licenseRequired
  | fatal (e : PyError)
  deriving DecidableEq, Repr

/-- How `main` itself ends: with a returned exit code, or by an exception
escaping it. -/
inductive MainOutcome where
  | returns (code : Nat)
  | raises (e : PyError)
  deriving DecidableEq, Repr

/-- `main` (cli/scan/scan.py lines 163-177): run the command; on normal
completion return `0`; on `LicenseRequiredException` log an error and return
`1`; on any other `BaseException` the handler's first statement is
`raise exception`, so the exception escapes `main` (the `log.error` and
`return 1` that follow it are unreachable). -/
def pyMain : ExecOutcome → MainOutcome
  | ExecOutcome.completes => MainOutcome.returns 0
  | ExecOutcome.licenseRequired => MainOutcome.returns 1
  | ExecOutcome.fatal e => MainOutcome.raises e

/-- `handle_interrupt` (cli/scan/scan.py lines 153-157): installed as the
`SIGINT` handler; exits the process via `sys.exit(130)`. -/
def handleInterruptExitCode : Nat := 130

/-- `handle_repeated_interrupt` (cli/scan/scan.py lines 147-150): the
handler installed for a second interrupt; exits immediately via
`os._exit(130)`. -/
def handleRepeatedInterruptExitCode : Nat := 130

/-! ## Concrete instances used by witnesses -/

/-- A filesystem in which every canonicalised path is a non-directory. -/
def fsAllNonDir : Filesystem := ⟨id, fun _ => RootNode.nonDir⟩

/-- A filesystem in which every canonicalised path is a directory whose
`os.scandir` raises `OSError`. -/
def fsAllDirFail : Filesystem := ⟨id, fun _ => RootNode.dirFail⟩

/-- A 100-byte ordinary file: `open` succeeds and `read(n)` at offset `o`
returns `min n (100 - o)` bytes. -/
def sampleFile : PyFile :=
  ⟨none, fun offset requested => ReadResult.ok (min requested (100 - offset))⟩

/-- A match context that never short-circuits and accumulates nothing. -/
def sampleCtx : MatcherCtx := ⟨fun _ => false, [], []⟩

/-! ## Helper lemmas -/

/-- Path items contribute no sentinels to a queue trace. -/
theorem countSentinels_paths_append (ps : List String) (l : List QueueItem) :
    countSentinels (ps.map QueueItem.path ++ l) = countSentinels l := by
  induction ps with
  | nil => rfl
  | cons p rest ih =>
      simp only [List.map_cons, List.cons_append, countSentinels,
        List.countP_cons, QueueItem.isSentinel, cond_false] at *
      simp [ih]

/-! ## C1 -/

/-- C1, counterexample.  The claim says the locator unit pushes exactly `N`
end-of-stream sentinels (here `N = 2` workers), and on a walk error pushes
the error followed by the `N` sentinels.  On the code, a successful run over
one non-directory root pushes exactly one sentinel (not two), and a failing
walk pushes the exception object and no sentinel at all. -/
theorem c1_counterexample :
    countSentinels (locatorRun fsAllNonDir (fun _ => true) ["a"]) = 1 ∧
    countSentinels (locatorRun fsAllNonDir (fun _ => true) ["a"]) ≠ 2 ∧
    locatorRun fsAllDirFail (fun _ => true) ["a"] =
      [QueueItem.poison ScanningException.directorySearchFailed] ∧
    countSentinels (locatorRun fsAllDirFail (fun _ => true) ["a"]) = 0 := by
  refine ⟨by decide, by decide, by decide, by decide⟩

/-- C1, amended.  For every scan, whatever the worker count, after the
controller signals end of input the locator unit pushes exactly ONE
end-of-stream sentinel onto the work queue, as its last item; when the
directory walk fails, the unit pushes the paths located before the failure,
then the error object as its last item, and NO sentinel at all. -/
theorem c1_amended_theorem :
    ∀ (fs : Filesystem) (filter : String → Bool) (inputs : List String),
    (∃ ps : List String, locatorRun fs filter inputs =
        ps.map QueueItem.path ++ [QueueItem.sentinel] ∧
      countSentinels (locatorRun fs filter inputs) = 1) ∨
    (∃ (ps : List String) (e : ScanningException), locatorRun fs filter inputs =
        ps.map QueueItem.path ++ [QueueItem.poison e] ∧
      countSentinels (locatorRun fs filter inputs) = 0) := by
  intro fs filter inputs
  induction inputs with
  | nil => exact Or.inl ⟨[], rfl, rfl⟩
  | cons p rest ih =>
      cases he : (locate fs filter p).2 with
      | some e =>
          refine Or.inr ⟨(locate fs filter p).1, e, ?_, ?_⟩ <;>
            simp [locatorRun, he, countSentinels_paths_append, countSentinels,
              QueueItem.isSentinel]
      | none =>
          rcases ih with ⟨ps, hsh, hc⟩ | ⟨ps, e, hsh, hc⟩
          · refine Or.inl ⟨(locate fs filter p).1 ++ ps, ?_, ?_⟩
            · simp [locatorRun, he, hsh]
            · simp [locatorRun, he, countSentinels_paths_append, hc]
          · refine Or.inr ⟨(locate fs filter p).1 ++ ps, e, ?_, ?_⟩
            · simp [locatorRun, he, hsh]
            · simp [locatorRun, he, countSentinels_paths_append, hc]

/-! ## C2 -/

/-- C2, counterexample.  The claim says scan workers get pool-slot indices
`1 … N` and that worker index `0` identifies only locator events.  On the
code, `ScanWorkerPool.start` runs `for i in range(self.size)`, so with one
worker the only scan worker gets index `0` — which is
`FILE_LOCATOR_WORKER_INDEX` — and every event it emits (here, the sentinel
handling pair) carries worker index `0`. -/
theorem c2_counterexample :
    poolWorkerIndices 1 = [0] ∧
    FILE_LOCATOR_WORKER_INDEX = 0 ∧
    ¬ (∀ i ∈ poolWorkerIndices 1, 1 ≤ i) ∧
    (workerRun (fun _ => sampleFile) (fun _ => sampleCtx) 0 none 1 1
        [WorkerInput.item QueueItem.sentinel]).map ScanEvent.workerIndex =
      [0, 0] := by
  exact ⟨rfl, rfl, by decide, rfl⟩

/-- Every event `_process_file` emits carries the worker's own index. -/
theorem processFileEvents_workerIndex (index : Nat) (path : String)
    (limit : Option Nat) (chunkSize : Nat) (f : PyFile) (ctx : MatcherCtx)
    (fuel : Nat) :
    ∀ e ∈ processFileEvents index path limit chunkSize f ctx fuel,
      e.workerIndex = index := by
  intro e he
  unfold processFileEvents at he
  cases ho : f.openError with
  | some code => simp [ho] at he; simp [he]
  | none =>
      cases hl : processLoop limit chunkSize f ctx fuel 0 0 with
      | none => simp [ho, hl] at he
      | some r =>
          cases r with
          | error code => simp [ho, hl] at he; simp [he]
          | ok length => simp [ho, hl] at he; simp [he]

/-- C2, amended.  The pool assigns its `N` scan workers the pool-slot
indices `0 … N-1` (`range(N)`), every event a scan worker emits carries that
worker's own index (`_put_event` sets `worker_index=self.index`), and the
file locator's index is `0` — so index `0` is shared between the locator and
the first scan worker rather than identifying only locator events. -/
theorem c2_amended_theorem :
    (∀ n, poolWorkerIndices n = List.range n) ∧
    (∀ n i, i ∈ poolWorkerIndices n → i < n) ∧
    FILE_LOCATOR_WORKER_INDEX = 0 ∧
    (∀ n, 0 < n → 0 ∈ poolWorkerIndices n) ∧
    (∀ env ctxEnv index limit chunkSize fuel inputs,
      ∀ e ∈ workerRun env ctxEnv index limit chunkSize fuel inputs,
        e.workerIndex = index) := by
  refine ⟨fun _ => rfl, fun n i h => List.mem_range.mp h, rfl,
    fun n hn => List.mem_range.mpr hn, ?_⟩
  intro env ctxEnv index limit chunkSize fuel inputs
  induction inputs with
  | nil => intro e he; simp [workerRun] at he
  | cons head rest ih =>
      intro e he
      cases head with
      | item i =>
          cases i with
          | path p =>
              simp only [workerRun, List.mem_append] at he
              rcases he with he | he
              · exact processFileEvents_workerIndex _ _ _ _ _ _ _ e he
              · exact ih e he
          | sentinel =>
              simp only [workerRun, List.mem_cons] at he
              rcases he with he | he | he <;> simp_all
          | poison ex =>
              simp only [workerRun, List.mem_cons] at he
              rcases he with he | he
              · simp [he]
              · exact ih e he
      | empty s =>
          simp only [workerRun] at he
          by_cases hs : s = Status.PROCESSING_FILES
          · simp [hs] at he; simp [he]
          · simp [hs] at he; exact ih e he

/-! ## C10 -/

/-- Every path yielded by `FileLocator.search_directory` passed the
`FileFilter`. -/
theorem searchList_mem_filter (filter : String → Bool) :
    ∀ entries q, q ∈ (searchList filter entries).1 → filter q = true := by
  intro entries
  induction entries using searchList.induct filter with
  | case1 => intro q hq; simp [searchList] at hq
  | case2 path entries rest inner e hin ih =>
      intro q hq
      rw [searchList] at hq
      rw [show (searchList filter entries).2 = some e from hin] at hq
      exact ih q hq
  | case3 path entries rest inner hin ih ihrest =>
      intro q hq
      rw [searchList] at hq
      rw [show (searchList filter entries).2 = none from hin] at hq
      simp only [List.mem_append] at hq
      rcases hq with hq | hq
      · exact ih q hq
      · exact ihrest q hq
  | case4 path rest =>
      intro q hq; simp [searchList] at hq
  | case5 p rest ih =>
      intro q hq
      rw [searchList] at hq
      simp only [List.mem_append] at hq
      rcases hq with hq | hq
      · by_cases hf : filter p
        · simp [hf] at hq; simp [hq, hf]
        · simp [hf] at hq
      · exact ih q hq
  | case6 path rest ih =>
      intro q hq
      rw [searchList] at hq
      exact ih q hq

/-- C10.  When the canonicalised (`os.path.realpath`) form of a root path is
not a directory — whether or not it exists or is a regular file —
`FileLocator.locate` puts exactly that canonicalised path on the work queue,
exactly once, without consulting the `FileFilter` (the result is the same
for any two filters); the `FileFilter` is consulted only for the entries
found during directory traversal, and every path the traversal yields passed
it. -/
theorem c10_theorem (fs : Filesystem) (filter filter' : String → Bool)
    (p : String) (h : fs.root (fs.realpath p) = RootNode.nonDir) :
    locate fs filter p = ([fs.realpath p], none) ∧
    (locate fs filter p).1.count (fs.realpath p) = 1 ∧
    locate fs filter p = locate fs filter' p ∧
    (∀ entries q, q ∈ (searchList filter entries).1 → filter q = true) := by
  refine ⟨?_, ?_, ?_, searchList_mem_filter filter⟩
  · rw [locate]; rw [h]
  · rw [locate]; rw [h]; simp
  · rw [locate, locate]; rw [h]

/-- C10, witness: a filesystem in which `"a"` canonicalises to itself and is
not a directory; two opposite filters agree and the path is enqueued once. -/
theorem c10_witness :
    locate fsAllNonDir (fun _ => true) "a" = (["a"], none) ∧
    (locate fsAllNonDir (fun _ => true) "a").1.count "a" = 1 ∧
    locate fsAllNonDir (fun _ => true) "a" =
      locate fsAllNonDir (fun _ => false) "a" ∧
    (∀ entries q, q ∈ (searchList (fun _ => true) entries).1 →
      (fun _ : String => true) q = true) :=
  c10_theorem fsAllNonDir (fun _ => true) (fun _ => false) "a" rfl

/-! ## C3 -/

/-- C3, counterexample.  The claim says the no-paths `ConfigurationError` is
raised before any worker unit has been started.  On the code, `Scanner.scan`
enters the worker-pool scope (starting all scan workers) before it calls
`finalize_paths`: in the zero-path run below the pool's worker is started
strictly before the error is raised. -/
theorem c3_counterexample :
    ScanStep.raiseConfigurationError ∈ scanTrace [] [] 1 ∧
    stepIndex (scanTrace [] [] 1) (ScanStep.startWorker 0) <
      stepIndex (scanTrace [] [] 1) ScanStep.raiseConfigurationError := by
  exact ⟨by decide, by decide⟩

/-- C3, amended.  `finalize_paths` raises `ScanConfigurationException` if
and only if zero paths were ever added via `add_path`; in `Scanner.scan` the
error is raised if and only if both the configured path set and the path
source are empty, and it is raised only AFTER the locator process and every
pool worker have been started — but before `await_results`, so it never
reaches the pool event loop (the pool scope exit terminates the workers and
the error propagates to the caller). -/
theorem c3_amended_theorem :
    (∀ s : LocatorProcessState,
      ((finalizePaths s).2.isSome ↔ s.pathCount = 0)) ∧
    (∀ paths sourcePaths workers,
      (ScanStep.raiseConfigurationError ∈ scanTrace paths sourcePaths workers
        ↔ paths = [] ∧ sourcePaths = [])) ∧
    (∀ paths sourcePaths workers,
      ScanStep.raiseConfigurationError ∈ scanTrace paths sourcePaths workers →
      ScanStep.awaitResults ∉ scanTrace paths sourcePaths workers) ∧
    (∀ paths sourcePaths workers,
      ∃ pre post,
        scanTrace paths sourcePaths workers =
          pre ++ ScanStep.finalize :: post ∧
        (∀ i, i < workers → ScanStep.startWorker i ∈ pre) ∧
        ScanStep.startLocatorProcess ∈ pre ∧
        ScanStep.raiseConfigurationError ∉ pre ∧
        ScanStep.awaitResults ∉ pre) := by
  refine ⟨?_, ?_, ?_, ?_⟩
  · intro s
    by_cases h : s.pathCount = 0 <;> simp [finalizePaths, h]
  · intro paths sourcePaths workers
    by_cases h : paths.length + sourcePaths.length = 0
    · have hp : paths = [] := List.length_eq_zero.mp (by omega)
      have hs : sourcePaths = [] := List.length_eq_zero.mp (by omega)
      subst hp; subst hs
      simp [scanTrace]
    · have : ¬(paths = [] ∧ sourcePaths = []) := by
        rintro ⟨hp, hs⟩; subst hp; subst hs; simp at h
      simp only [scanTrace, h, if_false, List.mem_append, List.mem_cons,
        List.mem_map, List.mem_singleton]
      simp [this]
  · intro paths sourcePaths workers hmem
    by_cases h : paths.length + sourcePaths.length = 0
    · simp [scanTrace, h]
    · simp [scanTrace, h] at hmem
  · intro paths sourcePaths workers
    refine ⟨[ScanStep.startTimer, ScanStep.startLocatorProcess] ++
      paths.map ScanStep.addPathStep ++
      [ScanStep.createMatcher, ScanStep.createMetrics] ++
      (poolWorkerIndices workers).map ScanStep.startWorker ++
      sourcePaths.map ScanStep.addPathStep,
      (if paths.length + sourcePaths.length = 0 then
        [ScanStep.raiseConfigurationError, ScanStep.terminateWorkers]
      else
        [ScanStep.awaitResults, ScanStep.joinWorkers, ScanStep.stopTimer,
         ScanStep.callFinishedHandler]), ?_, ?_, ?_, ?_, ?_⟩
    · simp [scanTrace]
    · intro i hi
      simp [poolWorkerIndices, List.mem_range, hi]
    · simp
    · simp
    · simp

/-! ## C4 -/

/-- C4.  The claim says the scan command exits `0` on completion, `1` on a
license/setup or fatal scan error, and `130` on interrupt.  On the code,
`main` returns `0` on completion, `1` on `LicenseRequiredException`, and the
interrupt handlers exit with `130`; but for every other `BaseException`
(a fatal scan error) the handler's first statement is `raise exception`, so
`main` re-raises instead of returning `1` — the `log.error` call and
`return 1` after the `raise` are unreachable. -/
theorem c4_bug_theorem :
    pyMain ExecOutcome.completes = MainOutcome.returns 0 ∧
    pyMain ExecOutcome.licenseRequired = MainOutcome.returns 1 ∧
    handleInterruptExitCode = 130 ∧
    handleRepeatedInterruptExitCode = 130 ∧
    pyMain (ExecOutcome.fatal
        (PyError.scanning ScanningException.directorySearchFailed)) =
      MainOutcome.raises
        (PyError.scanning ScanningException.directorySearchFailed) ∧
    (∀ code,
      pyMain (ExecOutcome.fatal
          (PyError.scanning ScanningException.directorySearchFailed)) ≠
        MainOutcome.returns code) := by
  refine ⟨rfl, rfl, rfl, rfl, rfl, ?_⟩
  intro code h
  simp [pyMain] at h

/-! ## C7 -/

/-- C7.  When a scan worker receives the end-of-stream sentinel from the
work queue, its remaining emission is exactly one `FILE_QUEUE_EMPTIED` event
followed by exactly one `COMPLETED` event — in that order — and nothing
afterwards: `_complete` clears `_working`, so the loop exits whatever items
would follow. -/
theorem c7_theorem :
    ∀ (env : String → PyFile) (ctxEnv : String → MatcherCtx) (index : Nat)
      (limit : Option Nat) (chunkSize fuel : Nat) (rest : List WorkerInput),
    workerRun env ctxEnv index limit chunkSize fuel
        (WorkerInput.item QueueItem.sentinel :: rest) =
      [⟨ScanEventType.FILE_QUEUE_EMPTIED, EventData.noData, index⟩,
       ⟨ScanEventType.COMPLETED, EventData.noData, index⟩] := by
  intro env ctxEnv index limit chunkSize fuel rest
  rfl

/-! ## C9 -/

/-- The loop `total = 0; for value in metric: total += value` computes the
sum of the list. -/
theorem aggregateIntMetric_eq_sum (metric : List Nat) :
    aggregateIntMetric metric = metric.sum := by
  simp [aggregateIntMetric, List.sum_eq_foldl]

/-- C9.  For every metrics value and elapsed time, the results message of
the default finished handler is exactly
`"Found {matches} matching file(s) after processing {count} file(s)
containing {bytes} byte(s) over {elapsed} second(s)"` with the aggregated
(per-worker-summed) match, file and byte totals and the rounded elapsed
seconds; the timeouts message `"{timeouts} timeout(s) occurred during scan"`
exists if and only if the aggregated timeout total is positive, and the
default handler logs it at warning level exactly in that case, always
logging the results message at info level. -/
theorem c9_theorem :
    ∀ (m : ScanMetrics) (elapsed : ℚ),
    (getScanFinishedMessages m elapsed).results =
      "Found " ++ toString m.matchedCounts.sum ++
        " matching file(s) after processing " ++ toString m.counts.sum ++
        " file(s) containing " ++ toString m.bytes.sum ++ " byte(s) over " ++
        toString (pyRound elapsed) ++ " second(s)" ∧
    ((getScanFinishedMessages m elapsed).timeouts.isSome ↔
      0 < m.timeouts.sum) ∧
    (∀ t, (getScanFinishedMessages m elapsed).timeouts = some t →
      t = toString m.timeouts.sum ++ " timeout(s) occurred during scan") ∧
    ((LogLevel.warning,
        toString m.timeouts.sum ++ " timeout(s) occurred during scan") ∈
      defaultScanFinishedHandler m elapsed ↔ 0 < m.timeouts.sum) ∧
    (LogLevel.info, (getScanFinishedMessages m elapsed).results) ∈
      defaultScanFinishedHandler m elapsed := by
  intro m elapsed
  have hc : getTotalCount m = m.counts.sum := aggregateIntMetric_eq_sum _
  have hb : getTotalBytes m = m.bytes.sum := aggregateIntMetric_eq_sum _
  have hm : getTotalMatches m = m.matchedCounts.sum :=
    aggregateIntMetric_eq_sum _
  have ht : getTotalTimeouts m = m.timeouts.sum := aggregateIntMetric_eq_sum _
  refine ⟨?_, ?_, ?_, ?_, ?_⟩
  · simp only [getScanFinishedMessages, hc, hb, hm]
  · by_cases h : 0 < m.timeouts.sum <;>
      simp [getScanFinishedMessages, ht, h]
  · intro t htmsg
    by_cases h : 0 < m.timeouts.sum
    · simp [getScanFinishedMessages, ht, h] at htmsg
      exact htmsg.symm
    · simp [getScanFinishedMessages, ht] at htmsg
      exact absurd htmsg.1 h
  · by_cases h : 0 < m.timeouts.sum
    · simp [defaultScanFinishedHandler, getScanFinishedMessages, ht, h]
    · simp [defaultScanFinishedHandler, getScanFinishedMessages, ht,
        Nat.not_lt.mp h, h]
  · by_cases h : 0 < m.timeouts.sum <;>
      simp [defaultScanFinishedHandler, getScanFinishedMessages, ht, h]

/-! ## C5 -/

/-- With a configured `scanned_content_limit`, the read loop never lets the
running byte count pass the limit: if it starts at or below the limit, any
final count it returns is at or below the limit. -/
theorem processLoop_ok_le (L chunkSize : Nat) (f : PyFile) (ctx : MatcherCtx)
    (hread : ReadValid f) :
    ∀ (fuel length chunkIndex out : Nat), length ≤ L →
    processLoop (some L) chunkSize f ctx fuel length chunkIndex =
      some (Except.ok out) → out ≤ L := by
  intro fuel
  induction fuel with
  | zero => intro length chunkIndex out _ h; simp [processLoop] at h
  | succ fuel ih =>
      intro length chunkIndex out hlen h
      rw [processLoop] at h
      by_cases hc : getNextChunkSize (some L) chunkSize length = 0
      · simp only [hc, if_pos rfl] at h
        simp at h
        omega
      · simp only [if_neg hc] at h
        have hlt : length < L := by
          by_contra hge
          have : getNextChunkSize (some L) chunkSize length = 0 := by
            simp [getNextChunkSize, Nat.le_of_not_lt hge]
          exact hc this
        have hcle : getNextChunkSize (some L) chunkSize length ≤ L - length := by
          simp [getNextChunkSize, Nat.not_le.mpr hlt]
        cases hr : f.read length (getNextChunkSize (some L) chunkSize length)
          with
        | err code => simp [hr] at h
        | ok b =>
            cases b with
            | zero => simp [hr] at h; omega
            | succ b0 =>
                have hble : b0 + 1 ≤ getNextChunkSize (some L) chunkSize length :=
                  hread _ _ _ hr
                have hlen' : length + (b0 + 1) ≤ L := by omega
                simp only [hr] at h
                by_cases hsc : ctx.shortCircuitAt chunkIndex = true
                · simp [hsc] at h; omega
                · simp only [Bool.not_eq_true] at hsc
                  simp only [hsc, Bool.false_eq_true, if_false] at h
                  exact ih _ _ _ hlen' h

/-- C5.  With `scanned_content_limit` configured, the `read_length` reported
in any `FILE_PROCESSED` event never exceeds the limit (the worker stops
reading once the limit is reached, the final chunk possibly short), and
every chunk the worker requests — with or without a limit — is at most
`chunk_size` bytes. -/
theorem c5_theorem (L chunkSize : Nat) (f : PyFile) (ctx : MatcherCtx)
    (index fuel : Nat) (path : String) (hread : ReadValid f) :
    (∀ e ∈ processFileEvents index path (some L) chunkSize f ctx fuel,
      ∀ p len matched timeouts,
        e.data = EventData.fileData p len matched timeouts → len ≤ L) ∧
    (∀ (limit : Option Nat) (length : Nat),
      getNextChunkSize limit chunkSize length ≤ chunkSize) := by
  constructor
  · intro e he p len matched timeouts hdata
    unfold processFileEvents at he
    cases ho : f.openError with
    | some code =>
        simp [ho] at he
        rw [he] at hdata
        simp at hdata
    | none =>
        cases hl : processLoop (some L) chunkSize f ctx fuel 0 0 with
        | none => simp [ho, hl] at he
        | some r =>
            cases r with
            | error code =>
                simp [ho, hl] at he
                rw [he] at hdata
                simp at hdata
            | ok length =>
                simp [ho, hl] at he
                rw [he] at hdata
                simp only [EventData.fileData.injEq] at hdata
                have := processLoop_ok_le L chunkSize f ctx hread fuel 0 0
                  length (Nat.zero_le L) hl
                omega
  · intro limit length
    cases limit with
    | none => simp [getNextChunkSize]
    | some l =>
        by_cases hge : length ≥ l <;>
          simp [getNextChunkSize, hge, Nat.min_le_right]

/-- C5, witness: a 100-byte file scanned with `scanned_content_limit = 5`
and `chunk_size = 2`: the reported length stays at most 5 and every
requested chunk stays at most 2. -/
theorem c5_witness :
    (∀ e ∈ processFileEvents 1 "a" (some 5) 2 sampleFile sampleCtx 10,
      ∀ p len matched timeouts,
        e.data = EventData.fileData p len matched timeouts → len ≤ 5) ∧
    (∀ (limit : Option Nat) (length : Nat),
      getNextChunkSize limit 2 length ≤ 2) :=
  c5_theorem 5 2 sampleFile sampleCtx 1 10 "a"
    (by
      intro offset requested n h
      have : min requested (100 - offset) = n := by
        simpa [sampleFile] using h
      omega)

/-! ## C8 -/

/-- C8.  When opening a file raises `OSError`, or any read of it does, the
worker emits exactly one `EXCEPTION` event carrying that error and no
`FILE_PROCESSED` event for that file; the worker's loop then continues with
the next queue item; and the pool event loop handles an `EXCEPTION` event by
logging at error level only — same status, loop continues, nothing
terminated, nothing raised, nothing recorded. -/
theorem c8_theorem :
    (∀ (index : Nat) (path : String) (limit : Option Nat) (chunkSize : Nat)
        (read : Nat → Nat → ReadResult) (ctx : MatcherCtx) (fuel code : Nat),
      processFileEvents index path limit chunkSize ⟨some code, read⟩ ctx
          fuel =
        [⟨ScanEventType.EXCEPTION,
          EventData.exceptionData (PyError.osError code), index⟩]) ∧
    (∀ (index : Nat) (path : String) (limit : Option Nat) (chunkSize : Nat)
        (f : PyFile) (ctx : MatcherCtx) (fuel code : Nat),
      f.openError = none →
      processLoop limit chunkSize f ctx fuel 0 0 =
        some (Except.error code) →
      processFileEvents index path limit chunkSize f ctx fuel =
        [⟨ScanEventType.EXCEPTION,
          EventData.exceptionData (PyError.osError code), index⟩]) ∧
    (∀ (index : Nat) (path : String) (limit : Option Nat) (chunkSize : Nat)
        (f : PyFile) (ctx : MatcherCtx) (fuel : Nat),
      (processFileEvents index path limit chunkSize f ctx fuel).countP
          (fun e => e.type = ScanEventType.EXCEPTION) = 1 →
      (processFileEvents index path limit chunkSize f ctx fuel).countP
          (fun e => e.type = ScanEventType.FILE_PROCESSED) = 0) ∧
    (∀ (env : String → PyFile) (ctxEnv : String → MatcherCtx)
        (index : Nat) (limit : Option Nat) (chunkSize fuel : Nat)
        (p : String) (rest : List WorkerInput),
      workerRun env ctxEnv index limit chunkSize fuel
          (WorkerInput.item (QueueItem.path p) :: rest) =
        processFileEvents index p limit chunkSize (env p) (ctxEnv p) fuel ++
          workerRun env ctxEnv index limit chunkSize fuel rest) ∧
    (∀ (status : Status) (data : EventData) (i : Nat),
      awaitStep status
          (some ⟨ScanEventType.EXCEPTION, data, i⟩) =
        ⟨status, true, false, none, some LogLevel.error, false⟩) := by
  refine ⟨?_, ?_, ?_, ?_, ?_⟩
  · intro index path limit chunkSize read ctx fuel code
    rfl
  · intro index path limit chunkSize f ctx fuel code hopen hloop
    unfold processFileEvents
    rw [hopen, hloop]
  · intro index path limit chunkSize f ctx fuel h
    unfold processFileEvents at *
    cases ho : f.openError with
    | some code => simp [ho]
    | none =>
        cases hl : processLoop limit chunkSize f ctx fuel 0 0 with
        | none => simp [ho, hl]
        | some r =>
            cases r with
            | error code => simp [ho, hl]
            | ok length =>
                rw [ho, hl] at h
                simp at h
  · intro env ctxEnv index limit chunkSize fuel p rest
    rfl
  · intro status data i
    rfl

/-! ## C6 -/

/-- Exhaustive description of one `await_results` iteration: it leaves the
status unchanged and continues; or it sets `PROCESSING_FILES` and continues,
and then the consumed item was a `FILE_QUEUE_EMPTIED` event; or it sets
`COMPLETE` and stops; or it sets `FAILED` and stops. -/
theorem awaitStep_cases (s : Status) (item : Option ScanEvent) :
    ((awaitStep s item).status = s ∧ (awaitStep s item).cont = true) ∨
    ((awaitStep s item).status = Status.PROCESSING_FILES ∧
      (awaitStep s item).cont = true ∧
      ∃ e, item = some e ∧ e.type = ScanEventType.FILE_QUEUE_EMPTIED) ∨
    ((awaitStep s item).status = Status.COMPLETE ∧
      (awaitStep s item).cont = false) ∨
    ((awaitStep s item).status = Status.FAILED ∧
      (awaitStep s item).cont = false) := by
  cases item with
  | none => right; right; left; exact ⟨rfl, rfl⟩
  | some e =>
      obtain ⟨t, d, i⟩ := e
      cases t with
      | COMPLETED => left; exact ⟨rfl, rfl⟩
      | FILE_QUEUE_EMPTIED =>
          right; left; exact ⟨rfl, rfl, ⟨_, rfl, rfl⟩⟩
      | FILE_PROCESSED => left; exact ⟨rfl, rfl⟩
      | EXCEPTION => left; exact ⟨rfl, rfl⟩
      | FATAL_EXCEPTION => right; right; right; exact ⟨rfl, rfl⟩
      | PROGRESS_UPDATE => left; exact ⟨rfl, rfl⟩
      | LOG_MESSAGE => left; exact ⟨rfl, rfl⟩

/-- From a running status (`LOCATING_FILES` or `PROCESSING_FILES`), the
status sequence of the event loop only moves forward along the
`LOCATING_FILES → PROCESSING_FILES → COMPLETE` order, apart from drops to
`FAILED`. -/
theorem awaitStatuses_chain :
    ∀ (items : List (Option ScanEvent)) (s : Status),
    s = Status.LOCATING_FILES ∨ s = Status.PROCESSING_FILES →
    List.Chain'
      (fun a b => b = Status.FAILED ∨ statusRank a ≤ statusRank b)
      (s :: awaitStatuses s items) := by
  intro items
  induction items with
  | nil => intro s _; simp [awaitStatuses]
  | cons item rest ih =>
      intro s hs
      rw [awaitStatuses]
      rw [List.chain'_cons]
      constructor
      · rcases awaitStep_cases s item with ⟨h, _⟩ | ⟨h, _, _⟩ | ⟨h, _⟩ |
          ⟨h, _⟩
        · right; rw [h]
        · right; rw [h]; rcases hs with hs | hs <;> simp [hs, statusRank]
        · right; rw [h]; rcases hs with hs | hs <;> simp [hs, statusRank]
        · left; exact h
      · rcases awaitStep_cases s item with ⟨h, hc⟩ | ⟨h, hc, _⟩ | ⟨h, hc⟩ |
          ⟨h, hc⟩
        · rw [hc, if_pos rfl, h]; exact ih s hs
        · rw [hc, if_pos rfl, h]; exact ih _ (Or.inr rfl)
        · rw [hc]; simp
        · rw [hc]; simp

/-- From a running status, every transition of the event loop that lands in
`PROCESSING_FILES` either starts there already, or starts in
`LOCATING_FILES` and consumes a `FILE_QUEUE_EMPTIED` event. -/
theorem awaitTrace_processing :
    ∀ (items : List (Option ScanEvent)) (s : Status),
    s = Status.LOCATING_FILES ∨ s = Status.PROCESSING_FILES →
    ∀ tr ∈ awaitTrace s items, tr.2.2 = Status.PROCESSING_FILES →
      tr.1 = Status.PROCESSING_FILES ∨
      (tr.1 = Status.LOCATING_FILES ∧
        ∃ e, tr.2.1 = some e ∧
          e.type = ScanEventType.FILE_QUEUE_EMPTIED) := by
  intro items
  induction items with
  | nil => intro s _ tr htr; simp [awaitTrace] at htr
  | cons item rest ih =>
      intro s hs tr htr hP
      rw [awaitTrace] at htr
      rcases List.mem_cons.mp htr with htr | htr
      · subst htr
        simp only at hP
        rcases awaitStep_cases s item with ⟨h, _⟩ | ⟨h, _, e, he, ht⟩ |
          ⟨h, _⟩ | ⟨h, _⟩
        · rw [h] at hP
          left; exact hP
        · rcases hs with hs | hs
          · right; exact ⟨hs, e, he, ht⟩
          · left; exact hs
        · rw [h] at hP; exact absurd hP (by decide)
        · rw [h] at hP; exact absurd hP (by decide)
      · rcases awaitStep_cases s item with ⟨h, hc⟩ | ⟨h, hc, _⟩ | ⟨h, hc⟩ |
          ⟨h, hc⟩
        · rw [hc, if_pos rfl, h] at htr
          exact ih s hs tr htr hP
        · rw [hc, if_pos rfl, h] at htr
          exact ih _ (Or.inr rfl) tr htr hP
        · rw [hc] at htr; simp at htr
        · rw [hc] at htr; simp at htr

/-- C6.  The pool's shared status flag starts at `LOCATING_FILES`; under the
event-loop step relation the status only moves forward along
`LOCATING_FILES → PROCESSING_FILES → COMPLETE` apart from drops to `FAILED`
(possible from any state, via `FATAL_EXCEPTION`); `PROCESSING_FILES` is
entered only by a `FILE_QUEUE_EMPTIED` event taken in `LOCATING_FILES` (the
first one — any later `FILE_QUEUE_EMPTIED` finds the status already
`PROCESSING_FILES` and leaves it unchanged); and from `PROCESSING_FILES` no
step ever moves the status back to `LOCATING_FILES`. -/
theorem c6_theorem :
    poolInitialStatus = Status.LOCATING_FILES ∧
    (∀ items : List (Option ScanEvent),
      List.Chain'
        (fun a b => b = Status.FAILED ∨ statusRank a ≤ statusRank b)
        (poolInitialStatus :: awaitStatuses poolInitialStatus items)) ∧
    (∀ (items : List (Option ScanEvent)) tr,
      tr ∈ awaitTrace poolInitialStatus items →
      tr.2.2 = Status.PROCESSING_FILES →
      tr.1 = Status.PROCESSING_FILES ∨
      (tr.1 = Status.LOCATING_FILES ∧
        ∃ e, tr.2.1 = some e ∧
          e.type = ScanEventType.FILE_QUEUE_EMPTIED)) ∧
    (∀ (d : EventData) (i : Nat),
      awaitStep Status.PROCESSING_FILES
          (some ⟨ScanEventType.FILE_QUEUE_EMPTIED, d, i⟩) =
        ⟨Status.PROCESSING_FILES, true, false, none, none, false⟩) ∧
    (∀ item : Option ScanEvent,
      (awaitStep Status.PROCESSING_FILES item).status ≠
        Status.LOCATING_FILES) := by
  refine ⟨rfl, ?_, ?_, ?_, ?_⟩
  · intro items
    exact awaitStatuses_chain items _ (Or.inl rfl)
  · intro items tr htr hP
    exact awaitTrace_processing items _ (Or.inl rfl) tr htr hP
  · intro d i; rfl
  · intro item
    rcases awaitStep_cases Status.PROCESSING_FILES item with ⟨h, _⟩ |
      ⟨h, _, _⟩ | ⟨h, _⟩ | ⟨h, _⟩ <;> rw [h] <;> decide

end Wordfence
